import Mathlib

/-!
Verification of the NCBI2wikidata reconciliation/normalization pipeline.

The definitions below are a shallow embedding of the two Go source files:
- efetch.go: the article data model (structures only; the HTTP fetch is an
  external collaborator and is not modelled).
- main.go: LoadLicenses, the per-article normalization loop in main, and the
  output formatting loop.

Go strings are modelled as Lean String (the file-reading layer of
LoadLicenses works on List Char so that the byte-stream/line structure is
explicit); Go maps are modelled as cons-front association lists, where a
later insert shadows an earlier one under List.lookup; Go's map default
value on a missing key is modelled with Option.getD or by total functions
into String (empty string = absent), matching how the code consumes them.
A panic (out-of-range index) is modelled as Except.error.
-/

/-! ## Data model (efetch.go) -/

structure ArticleID where
  ID : String
  IDType : String
deriving DecidableEq

structure ArticleIdList where
  ArticleIDs : List ArticleID
deriving DecidableEq

structure PubMedData where
  ArticleIDList : ArticleIdList
deriving DecidableEq

structure MeshDescriptorName where
  Name : String
  MeshID : String
  MajorTopicYN : String
deriving DecidableEq

structure MeshQualifierName where
  Name : String
  MeshID : String
  MajorTopicYN : String
deriving DecidableEq

structure MeshHeading where
  DescriptorName : MeshDescriptorName
  QualifierNames : List MeshQualifierName
deriving DecidableEq

structure MeshHeadingList where
  MeshHeadings : List MeshHeading
deriving DecidableEq

structure PubDate where
  Year : Int
  Month : String
  Day : Int
deriving DecidableEq

structure JournalIssue where
  Volume : String
  Issue : String
  PubDate : PubDate
deriving DecidableEq

structure Journal where
  Title : String
  ISOAbbreviation : String
  JournalIssue : JournalIssue
  ISSN : String
deriving DecidableEq

structure ArticleDate where
  Year : Int
  Month : Int
  Day : Int
deriving DecidableEq

structure PublicationType where
  Type' : String
  UI : String
deriving DecidableEq

structure PublicationTypeList where
  PublicationTypes : List PublicationType
deriving DecidableEq

structure Article where
  ArticleTitle : String
  Journal : Journal
  Language : String
  PublicationTypeList : PublicationTypeList
  ArticleDate : ArticleDate
deriving DecidableEq

structure MedlineCitation where
  PMID : String
  Article : List Article
  MeshHeadingList : MeshHeadingList
deriving DecidableEq

structure PubmedArticle where
  MedlineCitation : MedlineCitation
  PubMedData : PubMedData
deriving DecidableEq

/-! ## License file loading (main.go, LoadLicenses) -/

/-- Model of the bufio ReadString loop of LoadLicenses: produce the
newline-terminated lines of the stream, each including its final newline
character. ReadString returns an error together with the remaining data at
end of file, and the loop breaks on any error before processing that data,
so a final unterminated segment is never produced as a line. -/
def readLines : List Char → List (List Char)
  | [] => []
  | c :: rest =>
    if c = '\n' then ['\n'] :: readLines rest
    else
      match readLines rest with
      | [] => []
      | l :: ls => (c :: l) :: ls

/-- Model of Go strings.Split with a one-character separator. -/
def splitOnChar (sep : Char) : List Char → List (List Char)
  | [] => [[]]
  | c :: rest =>
    if c = sep then [] :: splitOnChar sep rest
    else
      match splitOnChar sep rest with
      | [] => [[c]]
      | l :: ls => (c :: l) :: ls

/-- Model of Go strings.TrimSuffix applied with the one-character suffix
consisting of a newline. -/
def trimNewlineSuffix (l : List Char) : List Char :=
  if l.getLast? = some '\n' then l.dropLast else l

/-- State threaded through LoadLicenses: the lookup map (a cons-front
association list: a later insert shadows an earlier one) together with the
list of lines printed to standard output. -/
abbrev LicenseState := List (String × String) × List String

/-- Body of the LoadLicenses read loop (main.go lines 62 to 81) for one
newline-terminated line. -/
def ProcessLicenseLine (st : LicenseState) (line : List Char) : LicenseState :=
  let parts := splitOnChar '\t' line
  if parts.length = 5 then
    let pmid := parts.getD 3 []
    let license := String.mk (trimNewlineSuffix (parts.getD 4 []))
    let split_pmid := splitOnChar ':' pmid
    let st1 :=
      if split_pmid.length = 2 then
        ((String.mk (split_pmid.getD 1 []), license) :: st.1, st.2)
      else st
    if (parts.getD 2 []).length > 0 then
      ((String.mk (parts.getD 2 []), license) :: st1.1, st1.2)
    else
      (st1.1, st1.2 ++ [String.mk line])
  else st

/-- LoadLicenses (main.go lines 43 to 85) on the full file content, returning
the lookup map and the lines printed to standard output. -/
def LoadLicenses (content : List Char) : LicenseState :=
  (readLines content).foldl ProcessLicenseLine ([], [])

/-! ## Normalization (main.go, the per-article loop of main) -/

structure Record where
  Title : String
  MainSubjects : List MeshDescriptorName
  PublicationType : String
  PublicationDate : String
  Publication : String
  ISSN : String
  License : String
  PMID : String
  PMCID : String
deriving DecidableEq

/-- The four accumulators of the main loop: records, pmcid_list, issn_list and
main_subject_list (main.go lines 137 to 143). -/
structure NormState where
  records : List Record
  pmcid_list : List String
  issn_list : List String
  main_subject_list : List String
deriving DecidableEq

def initState : NormState := ⟨[], [], [], []⟩

/-- Model of Go strings.TrimPrefix applied with the literal "PMC": remove one
leading occurrence when present, otherwise return the string unchanged. -/
def trimPMC (s : String) : String :=
  if "PMC".data.isPrefixOf s.data then s.drop 3 else s

/-- PMC-id extraction (main.go lines 147 to 154): the first external id whose
type tag is "pmc", with the literal "PMC" stripped; empty when absent. -/
def extractPMCID (article : PubmedArticle) : String :=
  match article.PubMedData.ArticleIDList.ArticleIDs.find?
      (fun articleID => articleID.IDType == "pmc") with
  | some articleID => trimPMC articleID.ID
  | none => ""

/-- License resolution (main.go lines 159 to 168): look the PMID up first;
when that leaves the license empty, look the PMCID up; a miss leaves the
license empty. -/
def resolveLicense (license_lookup : List (String × String)) (pmid pmcid : String) : String :=
  let license :=
    match List.lookup pmid license_lookup with
    | some l => l
    | none => ""
  if license = "" then
    match List.lookup pmcid license_lookup with
    | some l => l
    | none => ""
  else license

/-- Major-topic test of one mesh heading (main.go lines 176 to 179): the
descriptor flag, OR-folded with every qualifier flag. -/
def isMajorHeading (mesh : MeshHeading) : Bool :=
  mesh.QualifierNames.foldl (fun major qual => major || (qual.MajorTopicYN == "Y"))
    (mesh.DescriptorName.MajorTopicYN == "Y")

/-- Mesh-heading pass (main.go lines 174 to 184): ids appended to the shared
worklist (first component) and descriptors kept as the subjects of the record
(second component), in input order. -/
def majorSubjects (hl : MeshHeadingList) : List String × List MeshDescriptorName :=
  hl.MeshHeadings.foldl
    (fun acc mesh =>
      if isMajorHeading mesh then
        (acc.1 ++ [mesh.DescriptorName.MeshID], acc.2 ++ [mesh.DescriptorName])
      else acc)
    ([], [])

/-- Display-date resolution (main.go lines 186 to 191). -/
def resolvePubDate (article0 : Article) : String :=
  let p := article0.Journal.JournalIssue.PubDate
  let pubdate := p.Month ++ "-" ++ toString p.Year
  if p.Year = 0 ∨ p.Month = "" then
    let q := article0.ArticleDate
    toString q.Month ++ "-" ++ toString q.Year
  else pubdate

/-- Publication-type label (main.go lines 193 to 196): first entry of the
publication-type list when non-empty, otherwise the empty string. -/
def resolvePubType (article0 : Article) : String :=
  match article0.PublicationTypeList.PublicationTypes.head? with
  | some pt => pt.Type'
  | none => ""

/-- One iteration of the main normalization loop (main.go lines 145 to 216).
The worklist of PMC ids grows before the license check, exactly as in the
source; a dropped article (empty license) changes nothing else; Article[0]
on an article with an empty article-body list is a panic, modelled as
Except.error. -/
def processArticle (license_lookup : List (String × String)) (s : NormState)
    (article : PubmedArticle) : Except Unit NormState :=
  let pmcid := extractPMCID article
  let pmcid_list := if pmcid ≠ "" then s.pmcid_list ++ [pmcid] else s.pmcid_list
  let license := resolveLicense license_lookup article.MedlineCitation.PMID pmcid
  if license = "" then
    Except.ok { s with pmcid_list := pmcid_list }
  else
    match article.MedlineCitation.Article.head? with
    | none => Except.error ()
    | some article0 =>
      let ms := majorSubjects article.MedlineCitation.MeshHeadingList
      let pubdate := resolvePubDate article0
      let pubtype := resolvePubType article0
      let issn := article0.Journal.ISSN
      let issn_list := if issn ≠ "" then s.issn_list ++ [issn] else s.issn_list
      let r : Record :=
        { Title := article0.ArticleTitle
          PMID := article.MedlineCitation.PMID
          PMCID := pmcid
          License := license
          MainSubjects := ms.2
          PublicationDate := pubdate
          Publication := article0.Journal.Title
          ISSN := issn
          PublicationType := pubtype }
      Except.ok
        { records := s.records ++ [r]
          pmcid_list := pmcid_list
          issn_list := issn_list
          main_subject_list := s.main_subject_list ++ ms.1 }

/-- The whole normalization pass over the fetched articles. -/
def normalizeAll (license_lookup : List (String × String))
    (articles : List PubmedArticle) : Except Unit NormState :=
  articles.foldlM (processArticle license_lookup) initState

/-! ## Output formatting (main.go lines 237 to 270) -/

/-- The fixed license label to item table (main.go lines 26 to 36). -/
def CC_LICENSE_ITEM_IDS : List (String × String) :=
  [("CC0", "Q6938433"), ("CC BY", "Q6905323"), ("CC BY-NC-ND", "Q6937225"),
   ("CC BY-NC", "Q6936496"), ("CC BY 2.5", "Q18810333"), ("CC BY 4.0", "Q20007257")]

/-- Go map indexing with the zero-value default for a missing key. -/
def mapGetD (m : List (String × String)) (k : String) : String :=
  (List.lookup k m).getD ""

/-- Annotation appended after one subject name (main.go lines 254 to 263).
The resolution maps are modelled as total functions where the empty string
stands for a missing key, exactly as a Go map read behaves. -/
def subjectAnnotation (drug_wikidata_items disease_wikidata_items : String → String)
    (subject : MeshDescriptorName) : String :=
  let l := drug_wikidata_items subject.MeshID
  let l :=
    if disease_wikidata_items subject.MeshID ≠ "" then
      (if l ≠ "" then l ++ ", " else l) ++ disease_wikidata_items subject.MeshID
    else l
  if l ≠ "" then " (" ++ l ++ ")" else ""

/-- The main-subjects column (main.go lines 248 to 264): indexed loop, a
separator before every subject except the first. -/
def mainSubjectsColumn (drug disease : String → String)
    (subjects : List MeshDescriptorName) : String :=
  (subjects.foldl
    (fun acc subject =>
      let s := if acc.2 ≠ 0 then acc.1 ++ "; " else acc.1
      (s ++ subject.Name ++ subjectAnnotation drug disease subject, acc.2 + 1))
    ("", 0)).1

/-- One output row (main.go lines 266 to 269): the a twelve-field Sprintf with
tab separators and a final newline. -/
def formatRecord (pmcid_wikidata_items issn_wikidata_items
    drug_wikidata_items disease_wikidata_items : String → String)
    (record : Record) : String :=
  record.Title ++ "\t" ++ pmcid_wikidata_items record.PMCID ++ "\t" ++ record.PMID ++ "\t" ++
  record.PMCID ++ "\t" ++ record.License ++ "\t" ++
  mapGetD CC_LICENSE_ITEM_IDS record.License ++ "\t" ++
  mainSubjectsColumn drug_wikidata_items disease_wikidata_items record.MainSubjects ++ "\t" ++
  record.PublicationDate ++ "\t" ++ record.Publication ++ "\t" ++ record.ISSN ++ "\t" ++
  issn_wikidata_items record.ISSN ++ "\t" ++ record.PublicationType ++ "\n"

/-- The fixed header row (main.go line 242). -/
def headerLine : String :=
  "Title\tItem\tPMID\tPMCID\tLicense\tLicense Item\tMain Subjects\tPublication Date\tPublication\tISSN\tISSN item\tPublication Type\n"

/-- The output-writing loop (main.go lines 242 to 270) as the full content of
the results file: the header first, then one formatted row per record. -/
def writeOutput (pmc issn drug disease : String → String) (records : List Record) : String :=
  records.foldl (fun acc record => acc ++ formatRecord pmc issn drug disease record) headerLine

/-! ## Spec-side definitions, used to state the claims -/

/-- License resolution as the spec words it, amended: the entry for the
primary id when present and non-empty, otherwise the entry for the PMC id
when present and non-empty, otherwise none. -/
def licenseSpec (table : List (String × String)) (pmid pmcid : String) : Option String :=
  match List.lookup pmid table with
  | some l =>
    if l ≠ "" then some l
    else
      match List.lookup pmcid table with
      | some l2 => if l2 ≠ "" then some l2 else none
      | none => none
  | none =>
    match List.lookup pmcid table with
    | some l2 => if l2 ≠ "" then some l2 else none
    | none => none

/-- Major-topic classification as the spec words it: descriptor flag equal to
the literal "Y", or some qualifier flag equal to "Y". -/
def isMajorHeadingSpec (mesh : MeshHeading) : Bool :=
  (mesh.DescriptorName.MajorTopicYN == "Y") ||
    mesh.QualifierNames.any (fun qual => qual.MajorTopicYN == "Y")

/-- Whether an article passes the license filter of the main loop. -/
def acceptedArticle (table : List (String × String)) (article : PubmedArticle) : Bool :=
  resolveLicense table article.MedlineCitation.PMID (extractPMCID article) != ""

/-- What one article adds to the PMC-id worklist: its extracted PMC id when
non-empty, whether or not the article is accepted. -/
def pmcidContribution (article : PubmedArticle) : List String :=
  if extractPMCID article ≠ "" then [extractPMCID article] else []

/-- What one article adds to the ISSN worklist: the first body entry's ISSN,
when the article is accepted and that ISSN is non-empty. -/
def issnContribution (table : List (String × String)) (article : PubmedArticle) : List String :=
  if acceptedArticle table article then
    match article.MedlineCitation.Article.head? with
    | some article0 => if article0.Journal.ISSN ≠ "" then [article0.Journal.ISSN] else []
    | none => []
  else []

/-- What one article adds to the major-subject worklist: the ids of its major
headings, when the article is accepted. -/
def subjectContribution (table : List (String × String)) (article : PubmedArticle) : List String :=
  if acceptedArticle table article then
    (majorSubjects article.MedlineCitation.MeshHeadingList).1
  else []

/-- Per-subject annotation as the spec words it: both resolved values joined
with a comma and a space, otherwise just the one present, otherwise nothing. -/
def subjectAnnotationSpec (drug disease : String → String)
    (subject : MeshDescriptorName) : String :=
  if drug subject.MeshID ≠ "" then
    if disease subject.MeshID ≠ "" then
      " (" ++ drug subject.MeshID ++ ", " ++ disease subject.MeshID ++ ")"
    else " (" ++ drug subject.MeshID ++ ")"
  else if disease subject.MeshID ≠ "" then " (" ++ disease subject.MeshID ++ ")"
  else ""

/-- Join a list of strings with a two-character semicolon-space separator. -/
def joinSemicolon : List String → String
  | [] => ""
  | [x] => x
  | x :: y :: xs => x ++ "; " ++ joinSemicolon (y :: xs)

/-- Helper for relating the indexed column loop to the joined form: the tail
of the column, every entry preceded by the separator. -/
def joinTailSubjects (drug disease : String → String) : List MeshDescriptorName → String
  | [] => ""
  | subject :: rest =>
    "; " ++ subject.Name ++ subjectAnnotation drug disease subject ++
      joinTailSubjects drug disease rest

/-- Join a list of strings with single tab separators. -/
def tabJoin : List String → String
  | [] => ""
  | [x] => x
  | x :: y :: xs => x ++ "\t" ++ tabJoin (y :: xs)

/-- Concatenation of a list of strings. -/
def joinAll : List String → String
  | [] => ""
  | x :: xs => x ++ joinAll xs

/-- The twelve fields of one output row, in column order. -/
def recordFields (pmc issn drug disease : String → String) (record : Record) : List String :=
  [record.Title, pmc record.PMCID, record.PMID, record.PMCID, record.License,
   mapGetD CC_LICENSE_ITEM_IDS record.License,
   mainSubjectsColumn drug disease record.MainSubjects,
   record.PublicationDate, record.Publication, record.ISSN, issn record.ISSN,
   record.PublicationType]

/-! ## Concrete example data, used by counterexamples and witnesses -/

/-- A well-formed article body used by several concrete scenarios. -/
def articleBodyEx : Article :=
  { ArticleTitle := "A Title"
    Journal :=
      { Title := "A Journal"
        ISOAbbreviation := "AJ"
        JournalIssue :=
          { Volume := "1", Issue := "1"
            PubDate := { Year := 1999, Month := "Oct", Day := 14 } }
        ISSN := "1234-5678" }
    Language := "eng"
    PublicationTypeList := { PublicationTypes := [] }
    ArticleDate := { Year := 0, Month := 0, Day := 0 } }

/-- An article body whose journal-issue date is unusable, with a usable
alternate date, the fallback scenario of the spec. -/
def articleBodyFallbackDate : Article :=
  { articleBodyEx with
    Journal :=
      { articleBodyEx.Journal with
        JournalIssue :=
          { Volume := "1", Issue := "1"
            PubDate := { Year := 0, Month := "", Day := 0 } } }
    ArticleDate := { Year := 2020, Month := 5, Day := 1 } }

/-- An article whose primary id is a key of a license table built from a line
with an empty license field. -/
def articleLicEmpty : PubmedArticle :=
  { MedlineCitation :=
      { PMID := "2", Article := [articleBodyEx], MeshHeadingList := { MeshHeadings := [] } }
    PubMedData := { ArticleIDList := { ArticleIDs := [] } } }

/-- An article accepted through its primary id. -/
def articleAccepted : PubmedArticle :=
  { MedlineCitation :=
      { PMID := "11056661", Article := [articleBodyEx], MeshHeadingList := { MeshHeadings := [] } }
    PubMedData := { ArticleIDList := { ArticleIDs := [] } } }

/-- An article with a pmc-typed external id but no license-table entry. -/
def articleDroppedPMC : PubmedArticle :=
  { MedlineCitation :=
      { PMID := "77", Article := [articleBodyEx], MeshHeadingList := { MeshHeadings := [] } }
    PubMedData := { ArticleIDList := { ArticleIDs := [{ ID := "PMC7", IDType := "pmc" }] } } }

/-- An article with no pmc-typed external id at all. -/
def articleNoPMC : PubmedArticle :=
  { MedlineCitation :=
      { PMID := "9", Article := [articleBodyEx], MeshHeadingList := { MeshHeadings := [] } }
    PubMedData := { ArticleIDList := { ArticleIDs := [{ ID := "doi123", IDType := "doi" }] } } }

/-- An article whose pmc-typed external id carries the literal "PMC" twice. -/
def articleDoublePMC : PubmedArticle :=
  { MedlineCitation :=
      { PMID := "1", Article := [articleBodyEx], MeshHeadingList := { MeshHeadings := [] } }
    PubMedData := { ArticleIDList := { ArticleIDs := [{ ID := "PMCPMC7", IDType := "pmc" }] } } }

/-- The record that normalization produces for articleAccepted against the
one-entry table mapping its PMID to CC BY. -/
def recordAccepted : Record :=
  { Title := "A Title"
    MainSubjects := []
    PublicationType := ""
    PublicationDate := "Oct-1999"
    Publication := "A Journal"
    ISSN := "1234-5678"
    License := "CC BY"
    PMID := "11056661"
    PMCID := "" }

/-- The Record assembled for an accepted article (main.go lines 203 to 213),
written out with the first article-body entry made explicit. -/
def buildRecord (table : List (String × String)) (article : PubmedArticle)
    (article0 : Article) : Record :=
  { Title := article0.ArticleTitle
    PMID := article.MedlineCitation.PMID
    PMCID := extractPMCID article
    License := resolveLicense table article.MedlineCitation.PMID (extractPMCID article)
    MainSubjects := (majorSubjects article.MedlineCitation.MeshHeadingList).2
    PublicationDate := resolvePubDate article0
    Publication := article0.Journal.Title
    ISSN := article0.Journal.ISSN
    PublicationType := resolvePubType article0 }

/-- The loop state after an accepted article with first body entry article0. -/
def acceptedState (table : List (String × String)) (s : NormState)
    (article : PubmedArticle) (article0 : Article) : NormState :=
  { records := s.records ++ [buildRecord table article article0]
    pmcid_list :=
      if extractPMCID article ≠ "" then s.pmcid_list ++ [extractPMCID article]
      else s.pmcid_list
    issn_list :=
      if article0.Journal.ISSN ≠ "" then s.issn_list ++ [article0.Journal.ISSN]
      else s.issn_list
    main_subject_list :=
      s.main_subject_list ++ (majorSubjects article.MedlineCitation.MeshHeadingList).1 }

/-- The loop state after a dropped article: only the PMC-id worklist moves. -/
def droppedState (s : NormState) (article : PubmedArticle) : NormState :=
  { s with pmcid_list :=
      if extractPMCID article ≠ "" then s.pmcid_list ++ [extractPMCID article]
      else s.pmcid_list }

/-! ## Lemmas about the line reader -/

theorem readLines_of_no_newline (t : List Char) (ht : ∀ c ∈ t, c ≠ '\n') :
    readLines t = [] := by
  induction t with
  | nil => rfl
  | cons c rest ih =>
    have hc : c ≠ '\n' := ht c (by simp)
    have hr : readLines rest = [] := ih (fun x hx => ht x (by simp [hx]))
    simp [readLines, hc, hr]

theorem readLines_append (c t : List Char) (ht : ∀ ch ∈ t, ch ≠ '\n') :
    readLines (c ++ t) = readLines c := by
  induction c with
  | nil => simpa using readLines_of_no_newline t ht
  | cons x rest ih =>
    by_cases hx : x = '\n'
    · simp [readLines, hx, ih]
    · simp only [List.cons_append, readLines, hx, if_false, List.append_eq, ih]

/-- Claim C8: a license-file line that does not split on tab into exactly five
fields registers no mapping and produces no output; loading just moves on. -/
theorem C8_malformed_line_skipped (st : LicenseState) (line : List Char)
    (h : (splitOnChar '\t' line).length ≠ 5) :
    ProcessLicenseLine st line = st := by
  unfold ProcessLicenseLine
  simp [h]

/-- Witness for C8, on a line with no tab characters at all. -/
theorem C8_malformed_line_skipped_witness :
    (splitOnChar '\t' "not a license line\n".data).length ≠ 5 ∧
    ProcessLicenseLine ([("k", "v")], []) "not a license line\n".data = ([("k", "v")], []) :=
  ⟨by decide, C8_malformed_line_skipped ([("k", "v")], []) "not a license line\n".data (by decide)⟩

/-- Claim C10: appending a final line that is not terminated by a newline to a
license file changes nothing: the loader never processes it, even if it splits
into exactly five tab-separated fields. -/
theorem C10_unterminated_final_line_ignored (content tl : List Char)
    (ht : ∀ ch ∈ tl, ch ≠ '\n') :
    LoadLicenses (content ++ tl) = LoadLicenses content := by
  unfold LoadLicenses
  rw [readLines_append content tl ht]

/-- Witness for C10: a well-formed five-field final line with no newline
registers nothing. -/
theorem C10_unterminated_final_line_ignored_witness :
    LoadLicenses ("a\tb\tPMC3\tPMID:4\tCC0\n".data ++ "q\tw\tPMC5\tPMID:6\tCC0".data) =
      LoadLicenses "a\tb\tPMC3\tPMID:4\tCC0\n".data :=
  C10_unterminated_final_line_ignored "a\tb\tPMC3\tPMID:4\tCC0\n".data
    "q\tw\tPMC5\tPMID:6\tCC0".data (by decide)

/-! ## Helper lemmas -/

theorem except_bind_ok {α β : Type} (a : α) (f : α → Except Unit β) :
    (Except.ok a >>= f) = f a := rfl

theorem except_bind_err {α β : Type} (f : α → Except Unit β) :
    ((Except.error () : Except Unit α) >>= f) = Except.error () := rfl

theorem except_pure {α : Type} (a : α) : (pure a : Except Unit α) = Except.ok a := rfl

theorem string_append_ne_empty_right (s t : String) (ht : t ≠ "") : s ++ t ≠ "" := by
  intro h
  apply ht
  have hd := congrArg String.data h
  rw [String.data_append] at hd
  exact String.ext (List.append_eq_nil.mp hd).2

/-! ## Claim C3 -/

/-- Claim C3: the display date is month-year from the journal issue's
publication date (textual month, numeric year) when the primary year is
nonzero and the primary month label is non-empty; otherwise it is month-year
from the article's alternate date (numeric month, numeric year). -/
theorem C3_display_date (article0 : Article) :
    (article0.Journal.JournalIssue.PubDate.Year ≠ 0 ∧
        article0.Journal.JournalIssue.PubDate.Month ≠ "" →
      resolvePubDate article0 =
        article0.Journal.JournalIssue.PubDate.Month ++ "-" ++
          toString article0.Journal.JournalIssue.PubDate.Year) ∧
    (article0.Journal.JournalIssue.PubDate.Year = 0 ∨
        article0.Journal.JournalIssue.PubDate.Month = "" →
      resolvePubDate article0 =
        toString article0.ArticleDate.Month ++ "-" ++ toString article0.ArticleDate.Year) := by
  constructor
  · rintro ⟨h1, h2⟩
    simp only [resolvePubDate]
    rw [if_neg (by simp [h1, h2])]
  · intro h
    simp only [resolvePubDate]
    rw [if_pos h]

/-- Witness for C3, the scenario of the spec: primary date with year zero and
empty month, fallback year 2020 month 5, display date "5-2020". -/
theorem C3_display_date_witness :
    (articleBodyFallbackDate.Journal.JournalIssue.PubDate.Year = 0 ∨
      articleBodyFallbackDate.Journal.JournalIssue.PubDate.Month = "") ∧
    resolvePubDate articleBodyFallbackDate = "5-2020" := by
  refine ⟨Or.inl rfl, ?_⟩
  rw [(C3_display_date articleBodyFallbackDate).2 (Or.inl rfl)]
  decide

/-! ## Claim C4 -/

theorem foldl_or_any (l : List MeshQualifierName) (b : Bool) :
    l.foldl (fun major qual => major || (qual.MajorTopicYN == "Y")) b =
      (b || l.any fun qual => qual.MajorTopicYN == "Y") := by
  induction l generalizing b with
  | nil => simp
  | cons q qs ih => simp [List.foldl_cons, ih, Bool.or_assoc]

theorem isMajorHeading_eq_spec (mesh : MeshHeading) :
    isMajorHeading mesh = isMajorHeadingSpec mesh := by
  unfold isMajorHeading isMajorHeadingSpec
  rw [foldl_or_any]

theorem majorSubjects_foldl (hl : List MeshHeading) :
    ∀ l1 : List String, ∀ l2 : List MeshDescriptorName,
      hl.foldl
        (fun acc mesh =>
          if isMajorHeading mesh then
            (acc.1 ++ [mesh.DescriptorName.MeshID], acc.2 ++ [mesh.DescriptorName])
          else acc)
        (l1, l2) =
      (l1 ++ (hl.filter isMajorHeadingSpec).map (fun m => m.DescriptorName.MeshID),
       l2 ++ (hl.filter isMajorHeadingSpec).map (fun m => m.DescriptorName)) := by
  induction hl with
  | nil => intro l1 l2; simp
  | cons m ms ih =>
    intro l1 l2
    rw [List.foldl_cons]
    by_cases hm : isMajorHeading m = true
    · have hm' : isMajorHeadingSpec m = true := by rw [← isMajorHeading_eq_spec]; exact hm
      rw [if_pos hm, ih]
      simp [List.filter_cons, hm', List.append_assoc]
    · have hm' : ¬ isMajorHeadingSpec m = true := by rw [← isMajorHeading_eq_spec]; exact hm
      rw [if_neg hm, ih]
      simp [List.filter_cons, hm']

/-- Claim C4: a heading contributes to the article's major-subject result if
and only if its descriptor's major flag equals the literal "Y" or some
qualifier's major flag equals "Y"; exactly those headings reach the result
and the subject-id worklist, in input order. Stated as: the result is the
order-preserving filter of the input under the spec's classification rule,
and the worklist additions are the ids of that same filter. -/
theorem C4_major_subjects (hl : MeshHeadingList) :
    (majorSubjects hl).2 =
      (hl.MeshHeadings.filter isMajorHeadingSpec).map (fun m => m.DescriptorName) ∧
    (majorSubjects hl).1 =
      (hl.MeshHeadings.filter isMajorHeadingSpec).map (fun m => m.DescriptorName.MeshID) := by
  unfold majorSubjects
  rw [majorSubjects_foldl]
  simp

/-! ## Claim C5 -/

/-- Claim C5 (amended): extraction returns the first pmc-tagged entry's id
with one leading literal "PMC" removed when that literal is present (the id
is returned unchanged otherwise, so a doubled prefix survives once); with no
pmc-tagged entry the PMC id is empty, and the license fallback through an
empty PMC id reduces to the primary lookup whenever the empty string is not
itself a key of the table. -/
theorem C5_pmcid_extraction (article : PubmedArticle) :
    (article.PubMedData.ArticleIDList.ArticleIDs.find?
        (fun articleID => articleID.IDType == "pmc") = none →
      extractPMCID article = "") ∧
    (∀ e, article.PubMedData.ArticleIDList.ArticleIDs.find?
        (fun articleID => articleID.IDType == "pmc") = some e →
      extractPMCID article =
        if "PMC".data.isPrefixOf e.ID.data then e.ID.drop 3 else e.ID) ∧
    (∀ table : List (String × String), List.lookup "" table = none →
      extractPMCID article = "" →
      resolveLicense table article.MedlineCitation.PMID (extractPMCID article) =
        (List.lookup article.MedlineCitation.PMID table).getD "") := by
  refine ⟨?_, ?_, ?_⟩
  · intro h
    unfold extractPMCID
    rw [h]
  · intro e h
    unfold extractPMCID
    rw [h]
    rfl
  · intro table htab hext
    rw [hext]
    unfold resolveLicense
    cases hp : List.lookup article.MedlineCitation.PMID table with
    | none => simp [hp, htab]
    | some l =>
      by_cases hl : l = ""
      · simp [hp, htab, hl]
      · simp [hp, hl]

/-- Witness for C5 (amended), on an article with no pmc-typed entry and a
table without the empty key. -/
theorem C5_pmcid_extraction_witness :
    articleNoPMC.PubMedData.ArticleIDList.ArticleIDs.find?
        (fun articleID => articleID.IDType == "pmc") = none ∧
    extractPMCID articleNoPMC = "" ∧
    List.lookup "" [("9", "CC BY")] = none ∧
    resolveLicense [("9", "CC BY")] articleNoPMC.MedlineCitation.PMID
        (extractPMCID articleNoPMC) =
      (List.lookup articleNoPMC.MedlineCitation.PMID [("9", "CC BY")]).getD "" :=
  ⟨by decide, (C5_pmcid_extraction articleNoPMC).1 (by decide), by decide,
    (C5_pmcid_extraction articleNoPMC).2.2 [("9", "CC BY")] (by decide) (by decide)⟩

/-- Counterexample to C5 as stated: a source id carrying the literal "PMC"
twice leaves a Record whose PMC id still starts with "PMC", and when no
pmc-tagged entry exists the fallback lookup of the empty PMC id can still
succeed, because a table built with an empty key resolves it. -/
theorem C5_counterexample :
    (processArticle [("1", "CC BY")] initState articleDoublePMC).toOption.map
        (fun st => st.records.map Record.PMCID) = some ["PMC7"] ∧
    "PMC".data.isPrefixOf "PMC7".data = true ∧
    extractPMCID articleNoPMC = "" ∧
    (processArticle [("", "CC BY")] initState articleNoPMC).toOption.map
        (fun st => st.records.map Record.License) = some ["CC BY"] := by
  decide

/-! ## Claim C1 -/

theorem licenseSpec_eq_resolve (table : List (String × String)) (pmid pmcid : String) :
    licenseSpec table pmid pmcid =
      if resolveLicense table pmid pmcid = "" then none
      else some (resolveLicense table pmid pmcid) := by
  unfold licenseSpec resolveLicense
  cases hp : List.lookup pmid table with
  | none =>
    cases hc : List.lookup pmcid table with
    | none => simp
    | some l2 => by_cases h2 : l2 = "" <;> simp [h2]
  | some l =>
    by_cases h1 : l = ""
    · cases hc : List.lookup pmcid table with
      | none => simp [h1]
      | some l2 => by_cases h2 : l2 = "" <;> simp [h1, h2]
    · simp [h1]

/-- Claim C1 (amended): for every article whose article-body list is
non-empty, a Record is produced if and only if the table's entry for the
primary id is present and non-empty, or, failing that, the entry for the
extracted PMC id is present and non-empty; the produced Record carries that
entry as its license; otherwise the record list is unchanged. -/
theorem C1_record_iff_license (table : List (String × String)) (s : NormState)
    (article : PubmedArticle) (hbody : article.MedlineCitation.Article ≠ []) :
    ∃ s', processArticle table s article = Except.ok s' ∧
      match licenseSpec table article.MedlineCitation.PMID (extractPMCID article) with
      | some lic => ∃ r, s'.records = s.records ++ [r] ∧ r.License = lic
      | none => s'.records = s.records := by
  rw [licenseSpec_eq_resolve]
  by_cases hl : resolveLicense table article.MedlineCitation.PMID (extractPMCID article) = ""
  · rw [if_pos hl]
    refine ⟨droppedState s article, ?_, ?_⟩
    · simp only [processArticle]
      rw [if_pos hl]
      rfl
    · rfl
  · rw [if_neg hl]
    cases harts : article.MedlineCitation.Article with
    | nil => exact absurd harts hbody
    | cons article0 rest =>
      refine ⟨acceptedState table s article article0, ?_, ?_⟩
      · simp only [processArticle, harts, List.head?_cons]
        rw [if_neg hl]
        rfl
      · exact ⟨buildRecord table article article0, rfl, rfl⟩

/-- Witness for C1 (amended), on an accepted article. -/
theorem C1_record_iff_license_witness :
    articleAccepted.MedlineCitation.Article ≠ [] ∧
    ∃ s', processArticle [("11056661", "CC BY")] initState articleAccepted = Except.ok s' ∧
      match licenseSpec [("11056661", "CC BY")] articleAccepted.MedlineCitation.PMID
          (extractPMCID articleAccepted) with
      | some lic => ∃ r, s'.records = initState.records ++ [r] ∧ r.License = lic
      | none => s'.records = initState.records :=
  ⟨by decide,
    C1_record_iff_license [("11056661", "CC BY")] initState articleAccepted (by decide)⟩

/-- Counterexample to C1 as stated: the license file line with an empty
license field makes the primary id "2" a key of the table, yet no Record is
produced for an article with that primary id, because the code treats the
empty license value as a miss. -/
theorem C1_counterexample :
    List.lookup "2" (LoadLicenses "x\ty\tPMC9\tPMID:2\t\n".data).1 = some "" ∧
    processArticle (LoadLicenses "x\ty\tPMC9\tPMID:2\t\n".data).1 initState articleLicEmpty =
      Except.ok initState :=
  ⟨by decide, by rfl⟩

/-! ## Claim C2 -/

theorem processArticle_ok_worklists (table : List (String × String)) (s : NormState)
    (article : PubmedArticle) (s' : NormState)
    (h : processArticle table s article = Except.ok s') :
    s'.pmcid_list = s.pmcid_list ++ pmcidContribution article ∧
    s'.issn_list = s.issn_list ++ issnContribution table article ∧
    s'.main_subject_list = s.main_subject_list ++ subjectContribution table article := by
  simp only [processArticle] at h
  by_cases hl : resolveLicense table article.MedlineCitation.PMID (extractPMCID article) = ""
  · rw [if_pos hl] at h
    have hacc : acceptedArticle table article = false := by
      unfold acceptedArticle
      rw [hl]
      rfl
    cases h
    refine ⟨?_, ?_, ?_⟩
    · unfold pmcidContribution
      by_cases hp : extractPMCID article = "" <;> simp [hp]
    · simp [issnContribution, hacc]
    · simp [subjectContribution, hacc]
  · rw [if_neg hl] at h
    have hacc : acceptedArticle table article = true := by
      unfold acceptedArticle
      simp [bne_iff_ne, hl]
    cases harts : article.MedlineCitation.Article with
    | nil =>
      rw [harts] at h
      simp only [List.head?_nil] at h
      exact absurd h (by simp)
    | cons article0 rest =>
      rw [harts] at h
      simp only [List.head?_cons] at h
      cases h
      refine ⟨?_, ?_, ?_⟩
      · unfold pmcidContribution
        by_cases hp : extractPMCID article = "" <;> simp [hp]
      · unfold issnContribution
        rw [hacc, harts]
        simp only [List.head?_cons, if_true]
        by_cases hi : article0.Journal.ISSN = "" <;> simp [hi]
      · unfold subjectContribution
        rw [hacc]
        simp

theorem normalize_foldlM_worklists (table : List (String × String))
    (articles : List PubmedArticle) :
    ∀ s0 s : NormState, List.foldlM (processArticle table) s0 articles = Except.ok s →
      s.pmcid_list = s0.pmcid_list ++ articles.flatMap pmcidContribution ∧
      s.issn_list = s0.issn_list ++ articles.flatMap (issnContribution table) ∧
      s.main_subject_list =
        s0.main_subject_list ++ articles.flatMap (subjectContribution table) := by
  induction articles with
  | nil =>
    intro s0 s h
    rw [List.foldlM_nil, except_pure] at h
    cases h
    simp
  | cons a as ih =>
    intro s0 s h
    rw [List.foldlM_cons] at h
    cases ha : processArticle table s0 a with
    | error e =>
      rw [ha] at h
      cases e
      rw [except_bind_err] at h
      exact absurd h (by simp)
    | ok s1 =>
      rw [ha, except_bind_ok] at h
      obtain ⟨p1, p2, p3⟩ := processArticle_ok_worklists table s0 a s1 ha
      obtain ⟨q1, q2, q3⟩ := ih s1 s h
      refine ⟨?_, ?_, ?_⟩ <;>
        simp [q1, q2, q3, p1, p2, p3, List.flatMap_cons, List.append_assoc]

/-- Claim C2 (amended): when normalization completes, the PMC-id worklist is
the concatenation, in article order, of every non-empty extracted PMC id,
whether or not the article was accepted; the ISSN worklist is the
concatenation of the accepted articles' non-empty ISSNs; the subject
worklist is the concatenation of the accepted articles' major-heading ids.
None of the three is deduplicated. -/
theorem C2_worklists (table : List (String × String)) (articles : List PubmedArticle)
    (s : NormState) (h : normalizeAll table articles = Except.ok s) :
    s.pmcid_list = articles.flatMap pmcidContribution ∧
    s.issn_list = articles.flatMap (issnContribution table) ∧
    s.main_subject_list = articles.flatMap (subjectContribution table) := by
  have hm := normalize_foldlM_worklists table articles initState s h
  simpa [initState] using hm

/-- Witness for C2 (amended) on one accepted article. -/
theorem C2_worklists_witness :
    normalizeAll [("11056661", "CC BY")] [articleAccepted] =
      Except.ok ⟨[recordAccepted], [], ["1234-5678"], []⟩ ∧
    (⟨[recordAccepted], [], ["1234-5678"], []⟩ : NormState).pmcid_list =
      [articleAccepted].flatMap pmcidContribution ∧
    (⟨[recordAccepted], [], ["1234-5678"], []⟩ : NormState).issn_list =
      [articleAccepted].flatMap (issnContribution [("11056661", "CC BY")]) ∧
    (⟨[recordAccepted], [], ["1234-5678"], []⟩ : NormState).main_subject_list =
      [articleAccepted].flatMap (subjectContribution [("11056661", "CC BY")]) := by
  have h : normalizeAll [("11056661", "CC BY")] [articleAccepted] =
      Except.ok ⟨[recordAccepted], [], ["1234-5678"], []⟩ := by rfl
  exact ⟨h, C2_worklists [("11056661", "CC BY")] [articleAccepted] _ h⟩

/-- Counterexample to C2 as stated: two dropped copies of the same article
leave the PMC-id worklist with a duplicate entry and no accepted Record at
all, so the worklist is neither duplicate-free nor restricted to accepted
articles. -/
theorem C2_counterexample :
    normalizeAll [] [articleDroppedPMC, articleDroppedPMC] =
      Except.ok ⟨[], ["7", "7"], [], []⟩ ∧
    ¬ (["7", "7"] : List String).Nodup :=
  ⟨by rfl, by decide⟩

/-! ## Claim C6 -/

theorem foldl_append_joinAll {α : Type} (g : α → String) (l : List α) :
    ∀ acc : String, l.foldl (fun a x => a ++ g x) acc = acc ++ joinAll (l.map g) := by
  induction l with
  | nil => intro acc; simp [joinAll]
  | cons x xs ih =>
    intro acc
    rw [List.foldl_cons, ih]
    simp [joinAll, String.append_assoc]

/-- Claim C6: the output is exactly the fixed twelve-column tab-separated
header row followed by one tab-separated, newline-terminated row per accepted
Record, in the original order: the file content is the header plus the
concatenation of the per-record rows, the header is the tab-join of the
twelve fixed column names, and every row is the tab-join of its twelve
fields plus a newline. -/
theorem C6_output_shape (pmc issn drug disease : String → String) (records : List Record) :
    writeOutput pmc issn drug disease records =
      headerLine ++ joinAll (records.map (formatRecord pmc issn drug disease)) ∧
    headerLine = tabJoin ["Title", "Item", "PMID", "PMCID", "License", "License Item",
      "Main Subjects", "Publication Date", "Publication", "ISSN", "ISSN item",
      "Publication Type"] ++ "\n" ∧
    (∀ record, formatRecord pmc issn drug disease record =
      tabJoin (recordFields pmc issn drug disease record) ++ "\n") ∧
    (∀ record, (recordFields pmc issn drug disease record).length = 12) := by
  refine ⟨?_, by decide, ?_, fun record => rfl⟩
  · unfold writeOutput
    rw [foldl_append_joinAll]
  · intro record
    simp [formatRecord, tabJoin, recordFields, String.append_assoc]

/-! ## Claim C7 -/

theorem subjectAnnotation_eq_spec (drug disease : String → String)
    (subject : MeshDescriptorName) :
    subjectAnnotation drug disease subject = subjectAnnotationSpec drug disease subject := by
  unfold subjectAnnotation subjectAnnotationSpec
  by_cases hd : drug subject.MeshID = ""
  · by_cases hdi : disease subject.MeshID = ""
    · simp [hd, hdi]
    · simp [hd, hdi]
  · by_cases hdi : disease subject.MeshID = ""
    · simp [hd, hdi]
    · have hne2 : ", " ++ disease subject.MeshID ≠ "" :=
        string_append_ne_empty_right _ _ hdi
      have hne : drug subject.MeshID ++ (", " ++ disease subject.MeshID) ≠ "" :=
        string_append_ne_empty_right _ _ hne2
      simp [hd, hdi, hne, String.append_assoc]

theorem mainSubjectsColumn_foldl (drug disease : String → String)
    (subjects : List MeshDescriptorName) :
    ∀ (s : String) (n : Nat), n ≠ 0 →
      (subjects.foldl
        (fun acc subject =>
          let t := if acc.2 ≠ 0 then acc.1 ++ "; " else acc.1
          (t ++ subject.Name ++ subjectAnnotation drug disease subject, acc.2 + 1))
        (s, n)).1 = s ++ joinTailSubjects drug disease subjects := by
  induction subjects with
  | nil =>
    intro s n hn
    simp [joinTailSubjects, List.foldl_nil]
  | cons x xs ih =>
    intro s n hn
    rw [List.foldl_cons]
    exact (ih _ (n + 1) (Nat.succ_ne_zero n)).trans (by
      rw [if_pos hn]
      simp [joinTailSubjects, String.append_assoc])

theorem joinSemicolon_map_cons (drug disease : String → String)
    (xs : List MeshDescriptorName) :
    ∀ x : MeshDescriptorName,
      joinSemicolon ((x :: xs).map
          (fun subject => subject.Name ++ subjectAnnotation drug disease subject)) =
        x.Name ++ subjectAnnotation drug disease x ++ joinTailSubjects drug disease xs := by
  induction xs with
  | nil =>
    intro x
    simp [joinSemicolon, joinTailSubjects, String.append_empty]
  | cons y ys ih =>
    intro x
    simp only [List.map_cons, joinSemicolon]
    have ih' := ih y
    rw [List.map_cons] at ih'
    rw [ih']
    simp [joinTailSubjects, String.append_assoc]

/-- Claim C7: for every Record and resolution maps, the subject column is the
subject names joined with a semicolon and a space, each subject annotated
with its resolved drug and disease items in parentheses, comma-space joined
when both resolve, just the one present otherwise, and no annotation when
neither resolves; in the scenario where a subject id resolves to Q1 in the
drug map and Q2 in the disease map the annotation renders as (Q1, Q2). -/
theorem C7_subject_column :
    (∀ (drug disease : String → String) (subjects : List MeshDescriptorName),
      mainSubjectsColumn drug disease subjects =
        joinSemicolon (subjects.map (fun subject =>
          subject.Name ++ subjectAnnotationSpec drug disease subject))) ∧
    mainSubjectsColumn (fun k => if k = "D015518" then "Q1" else "")
        (fun k => if k = "D015518" then "Q2" else "")
        [{ Name := "Rett Syndrome", MeshID := "D015518", MajorTopicYN := "Y" }] =
      "Rett Syndrome (Q1, Q2)" := by
  constructor
  · intro drug disease subjects
    have hfun : (fun subject : MeshDescriptorName =>
        subject.Name ++ subjectAnnotationSpec drug disease subject) =
        (fun subject => subject.Name ++ subjectAnnotation drug disease subject) := by
      funext subject
      rw [subjectAnnotation_eq_spec]
    rw [hfun]
    cases subjects with
    | nil => rfl
    | cons x xs =>
      rw [joinSemicolon_map_cons]
      unfold mainSubjectsColumn
      rw [List.foldl_cons]
      exact (mainSubjectsColumn_foldl drug disease xs _ 1 one_ne_zero).trans (by
        rw [if_neg (by simp : ¬((0 : Nat) ≠ 0))]
        simp [String.empty_append, String.append_assoc])
  · decide

/-! ## Claim C9 -/

/-- Claim C9: when every fetched article's article-body list is non-empty,
normalization never reaches the out-of-bounds branch (processArticle always
returns ok), and the result depends only on the first body entry: replacing
everything after the first entry changes nothing, so title, ISSN, venue
name, journal-issue date and publication type are read from the first entry
only. -/
theorem C9_first_entry_only :
    (∀ (table : List (String × String)) (s : NormState) (article : PubmedArticle),
      article.MedlineCitation.Article ≠ [] →
      ∃ s', processArticle table s article = Except.ok s') ∧
    (∀ (table : List (String × String)) (s : NormState) (pmid : String)
        (hl : MeshHeadingList) (pd : PubMedData) (article0 : Article)
        (rest rest' : List Article),
      processArticle table s ⟨⟨pmid, article0 :: rest, hl⟩, pd⟩ =
        processArticle table s ⟨⟨pmid, article0 :: rest', hl⟩, pd⟩) := by
  constructor
  · intro table s article hbody
    by_cases hlic : resolveLicense table article.MedlineCitation.PMID (extractPMCID article) = ""
    · refine ⟨droppedState s article, ?_⟩
      simp only [processArticle]
      rw [if_pos hlic]
      rfl
    · cases harts : article.MedlineCitation.Article with
      | nil => exact absurd harts hbody
      | cons article0 rest =>
        refine ⟨acceptedState table s article article0, ?_⟩
        simp only [processArticle, harts, List.head?_cons]
        rw [if_neg hlic]
        rfl
  · intro table s pmid hl pd article0 rest rest'
    rfl

/-- Witness for C9, on an article with a one-entry body list. -/
theorem C9_first_entry_only_witness :
    articleDroppedPMC.MedlineCitation.Article ≠ [] ∧
    ∃ s', processArticle [] initState articleDroppedPMC = Except.ok s' :=
  ⟨by decide, C9_first_entry_only.1 [] initState articleDroppedPMC (by decide)⟩
